import Mathlib

/-!
Shallow embedding of the `ehandlers.except_handlers` package
(`tools.py`, `messages.py`, `handlers.py`).

Modelling conventions:

* A Python value that may flow through these functions is a `PyVal`:
  an exception instance (carrying its class name and its `str()` text),
  an exception class, a plain string, a callable (function or
  non-exception class, carrying its `__name__`), or an integer (standing
  for any value that is neither a string, a callable, nor an exception).
* `str()` of a value is `pyStr`.  For an exception instance the host
  language renders its message; for a class it renders
  `<class 'Name'>`; the memory address inside `str()` of a function is
  elided.
* Python `None` arguments are `Option.none`; keyword defaults are passed
  explicitly at every call site.
* Raising is modelled by returning a `Raised` record: the exception
  value raised and its recorded `__cause__` (`raise X from Y` sets the
  cause to `Y`; a bare `raise X` leaves it unset).
* The logging sink is opaque (`Logger`); the single `log_obj.log(...)`
  call a function performs is modelled by the `LogRecord` it returns.
  A function that can either raise before logging or log returns
  `Except Raised LogRecord`; an orchestrator that logs and then raises
  returns the list of records written together with the `Raised` value.
* Call-stack introspection (`inspect.getframeinfo(...).function`) is an
  ambient read of the caller's frame; it is passed in as the explicit
  parameter `frame_name`.
-/

inductive PyVal where
  | excInst (ty : String) (msg : String)
  | excType (ty : String)
  | str (s : String)
  | callable (nm : String)
  | pyInt (n : Int)
deriving DecidableEq, Repr

/-- `str(v)` of the host language, for the values modelled here. -/
def pyStr : PyVal → String
  | .excInst _ msg => msg
  | .excType ty => "<class \x27" ++ ty ++ "\x27>"
  | .str s => s
  | .callable nm => "<function " ++ nm ++ ">"
  | .pyInt n => toString n

/-- Python truthiness of a modelled value (`if v:`). -/
def pyTruthy : PyVal → Bool
  | .excInst _ _ => true
  | .excType _ => true
  | .callable _ => true
  | .str s => !(s == "")
  | .pyInt n => !(n == 0)

/-- Truthiness of an optional string (`if msg:` where `msg` may be `None`). -/
def optStrTruthy : Option String → Bool
  | none => false
  | some s => !(s == "")

/-- `isinstance(v, str)`. -/
def isStr : PyVal → Bool
  | .str _ => true
  | _ => false

/-- `isinstance(v, Callable)`: functions and classes are callable. -/
def isCallable : PyVal → Bool
  | .callable _ => true
  | .excType _ => true
  | _ => false

/-- `__name__` of a callable (function name or class name). -/
def callable_name : PyVal → String
  | .callable nm => nm
  | .excType ty => ty
  | _ => ""

/-- The class name of an exception class or instance. -/
def class_name : PyVal → String
  | .excType ty => ty
  | .excInst ty _ => ty
  | _ => ""

/-- `err()`: instantiating an exception class with no arguments yields an
instance whose `str()` is empty. -/
def call_noargs : PyVal → PyVal
  | .excType ty => .excInst ty ""
  | v => v

/-- `err(message)`: constructing an exception instance from a class and
one argument.  The instance records the `str()` text the host language
gives it: CPython's `KeyError.__str__` returns the `repr` of its
argument, so the key renders within quotes, while other exception
classes render the argument's text unchanged. -/
def call_with_msg : PyVal → String → PyVal
  | .excType ty, m =>
      .excInst ty (if ty == "KeyError" then "\x27" ++ m ++ "\x27" else m)
  | v, _ => v

/-- tools.is_exc_instance: `isinstance(obj, Exception)`. -/
def is_exc_instance : PyVal → Bool
  | .excInst _ _ => true
  | _ => false

/-- tools.is_exc_type: `inspect.isclass(obj) and issubclass(obj, Exception)`
and not an instance. -/
def is_exc_type : PyVal → Bool
  | .excType _ => true
  | _ => false

/-- tools.is_exception: instance or type of exception. -/
def is_exception (v : PyVal) : Bool :=
  is_exc_instance v || is_exc_type v

/-- messages.get_err_str: an exception instance renders as
`f'{err.__class__.__name__}: {err}'`; any other value is returned
unchanged. -/
def get_err_str (err : PyVal) : PyVal :=
  if is_exc_instance err then .str (class_name err ++ ": " ++ pyStr err)
  else err

/-- messages.simple_msg_err: `f'<{func_name}> {get_err_str(err)}'`. -/
def simple_msg_err (err : PyVal) (func_name : String) : String :=
  "<" ++ func_name ++ "> " ++ pyStr (get_err_str err)

/-- messages.annotated_msg_err:
`f'<{func_name}> {err_annotated}: {get_err_str(err)}'`. -/
def annotated_msg_err (err : PyVal) (func_name : String)
    (err_annotated : String) : String :=
  "<" ++ func_name ++ "> " ++ err_annotated ++ ": " ++ pyStr (get_err_str err)

/-- messages.get_simple_or_annotated: dispatches on
`if err_annotated is None`. -/
def get_simple_or_annotated (err : PyVal) (func_name : String)
    (err_annotated : Option String) : String :=
  match err_annotated with
  | none => simple_msg_err err func_name
  | some a => annotated_msg_err err func_name a

/-- One piece of a `str.format` template: literal text or a named
replacement field `\x7bkey\x7d`.  The parse of the template string into
pieces is the host language's. -/
inductive TItem where
  | lit (s : String)
  | field (k : String)
deriving DecidableEq, Repr

/-- Lookup in a keyword-argument mapping. -/
def lookupCtx : List (String × PyVal) → String → Option PyVal
  | [], _ => none
  | (k0, v) :: rest, k => if k == k0 then some v else lookupCtx rest k

/-- `dict.setdefault(k, v)`: insert only when the key is absent. -/
def setdefault (ctx : List (String × PyVal)) (k : String) (v : PyVal) :
    List (String × PyVal) :=
  if (lookupCtx ctx k).isSome then ctx else ctx ++ [(k, v)]

/-- `template.format(**ctx)`: substitute each named field with `str()` of
its value; a field whose key is absent raises `KeyError(key)`, modelled
as `Except.error key`. -/
def formatTemplate : List TItem → List (String × PyVal) → Except String String
  | [], _ => Except.ok ""
  | TItem.lit s :: rest, ctx =>
      match formatTemplate rest ctx with
      | Except.ok t => Except.ok (s ++ t)
      | Except.error k => Except.error k
  | TItem.field k :: rest, ctx =>
      match lookupCtx ctx k with
      | none => Except.error k
      | some v =>
          match formatTemplate rest ctx with
          | Except.ok t => Except.ok (pyStr v ++ t)
          | Except.error k2 => Except.error k2

/-- The keys referenced by a template's replacement fields. -/
def fieldKeys : List TItem → List String
  | [] => []
  | TItem.lit _ :: rest => fieldKeys rest
  | TItem.field k :: rest => k :: fieldKeys rest

/-- messages.custom_msg_err: installs `err` and `func_name` as defaults in
the keyword context, then `template_msg_err.format(**template_context)`. -/
def custom_msg_err (err : PyVal) (func_name : String)
    (template_msg_err : List TItem)
    (template_context : List (String × PyVal)) : Except String String :=
  let ctx := setdefault template_context "err" err
  let ctx := setdefault ctx "func_name" (.str func_name)
  formatTemplate template_msg_err ctx

/-- An opaque caller-supplied logging sink; the single write it receives
is modelled by the `LogRecord` a function returns. -/
structure Logger where
deriving DecidableEq, Repr

/-- One `log_obj.log(log_level, err_msg, **log_kwargs)` call. -/
structure LogRecord where
  level : Nat
  msg : String
  kwargs : List (String × PyVal)
deriving DecidableEq, Repr

/-- The effect of a `raise` statement: the exception raised and its
recorded `__cause__` (`raise X from Y` sets it to `Y`). -/
structure Raised where
  exc : PyVal
  cause : Option PyVal
deriving DecidableEq, Repr

/-- `logging.ERROR`. -/
def logging_ERROR : Nat := 40

/-- `logging.WARNING`. -/
def logging_WARNING : Nat := 30

/-- handlers.raise_type: if the argument is not an exception class, raise
`TypeError(f'\x7berr\x7d должен быть типом класса исключений')`;
otherwise raise `err(msg) if msg else err()`. -/
def raise_type (err : PyVal) (msg : Option String) : Raised :=
  if !(is_exc_type err) then
    ⟨.excInst "TypeError" (pyStr err ++ " должен быть типом класса исключений"),
      none⟩
  else
    ⟨if optStrTruthy msg then .excInst (class_name err) (msg.getD "")
      else call_noargs err,
      none⟩

/-- handlers.raise_except: instantiate bare exception classes, then
`raise err_raise from err if from_err else err_raise` when `err_raise`
is truthy — by Python operator precedence this is
`raise err_raise from (err if from_err else err_raise)` — else
`raise err`. -/
def raise_except (err : PyVal) (err_raise : Option PyVal)
    (from_err : Bool) : Raised :=
  let err := if is_exc_type err then call_noargs err else err
  let err_raise := match err_raise with
    | some r => some (if is_exc_type r then call_noargs r else r)
    | none => none
  match err_raise with
  | some r =>
      if pyTruthy r then ⟨r, some (if from_err then err else r)⟩
      else ⟨err, none⟩
  | none => ⟨err, none⟩

/-- handlers.log_err's inner `get_func_name`: a value that is neither a
string nor callable is replaced by the function `log_err` itself; a
callable contributes its `__name__`, a string is returned as is. -/
def get_func_name (fn : PyVal) : String :=
  let fn := if !(isStr fn || isCallable fn) then PyVal.callable "log_err" else fn
  if isCallable fn then callable_name fn
  else pyStr fn

/-- handlers.log_err: resolve the source label (explicit value via
`get_func_name`, else the caller's frame name from `inspect`), then the
inner `get_log_obj` raises `raise_type(AttributeError, ...)` when no
sink was supplied; otherwise format via `get_simple_or_annotated` and
perform the single `log_obj.log` call. -/
def log_err (err_to_log : PyVal) (err_annotated : Option String)
    (log_obj : Option Logger) (log_level : Nat)
    (source_func : Option PyVal) (log_kwargs : List (String × PyVal))
    (frame_name : String) : Except Raised LogRecord :=
  let func_name := match source_func with
    | none => frame_name
    | some fn => get_func_name fn
  match log_obj with
  | none =>
      Except.error (raise_type (.excType "AttributeError")
        (some "отсутствует объект логирования"))
  | some _ =>
      Except.ok ⟨log_level,
        get_simple_or_annotated err_to_log func_name err_annotated,
        log_kwargs⟩

/-- handlers.intercept_err_and_log: resolve `source_func` (caller's frame
name when `None`), log via `log_err` (whose failure propagates before
anything is written), then `raise_except(err, err_raise, from_err)`. -/
def intercept_err_and_log (err : PyVal) (err_annotated : Option String)
    (err_raise : Option PyVal) (log_obj : Option Logger) (log_level : Nat)
    (from_err : Bool) (source_func : Option PyVal)
    (log_kwargs : List (String × PyVal)) (frame_name : String) :
    List LogRecord × Raised :=
  let source_func := match source_func with
    | none => some (PyVal.str frame_name)
    | some v => some v
  match log_err err err_annotated log_obj log_level source_func log_kwargs
      frame_name with
  | Except.error r => ([], r)
  | Except.ok rec => ([rec], raise_except err err_raise from_err)

/-- handlers.raise_err_and_log: resolve `source_func`, instantiate a bare
exception class with `err_message` (`exc_err = err(err_message)`, via
`call_with_msg`) when that message is truthy, log via `log_err` (no
extra keyword arguments), then `raise_except(exc_err)` with its
defaults (`err_raise=None`, `from_err=True`). -/
def raise_err_and_log (err : PyVal) (err_message : Option String)
    (err_annotated : Option String) (log_obj : Option Logger)
    (log_level : Nat) (source_func : Option PyVal) (frame_name : String) :
    List LogRecord × Raised :=
  let source_func := match source_func with
    | none => some (PyVal.str frame_name)
    | some v => some v
  let exc_err :=
    if is_exc_type err then
      (if optStrTruthy err_message then
        call_with_msg err (err_message.getD "")
      else err)
    else err
  match log_err exc_err err_annotated log_obj log_level source_func []
      frame_name with
  | Except.error r => ([], r)
  | Except.ok rec => ([rec], raise_except exc_err none true)

/-! Helper lemmas about keyword contexts and template formatting. -/

theorem lookupCtx_append_single (ctx : List (String × PyVal)) (k k0 : String)
    (v : PyVal) :
    lookupCtx (ctx ++ [(k0, v)]) k =
      match lookupCtx ctx k with
      | some w => some w
      | none => if k == k0 then some v else none := by
  induction ctx with
  | nil => rfl
  | cons hd rest ih =>
      obtain ⟨k1, w⟩ := hd
      by_cases h : k == k1 <;> simp [lookupCtx, h, ih]

theorem lookupCtx_setdefault_isSome (ctx : List (String × PyVal))
    (k0 : String) (v : PyVal) (k : String) :
    (lookupCtx (setdefault ctx k0 v) k).isSome =
      ((lookupCtx ctx k).isSome || k == k0) := by
  unfold setdefault
  by_cases h : (lookupCtx ctx k0).isSome
  · simp only [h, if_true]
    by_cases hk : k == k0
    · have : k = k0 := by simpa using hk
      subst this
      simp [h, hk]
    · simp [hk]
  · simp only [h, if_false, Bool.false_eq_true, lookupCtx_append_single]
    cases hc : lookupCtx ctx k with
    | some w => simp [hc]
    | none =>
        by_cases hk : k == k0 <;> simp [hk]

theorem setdefault_of_present (ctx : List (String × PyVal)) (k0 : String)
    (v : PyVal) (h : (lookupCtx ctx k0).isSome = true) :
    setdefault ctx k0 v = ctx := by
  simp [setdefault, h]

theorem formatTemplate_isOk (tmpl : List TItem)
    (ctx : List (String × PyVal)) :
    (formatTemplate tmpl ctx).isOk = true ↔
      ∀ k ∈ fieldKeys tmpl, (lookupCtx ctx k).isSome = true := by
  induction tmpl with
  | nil => simp [formatTemplate, fieldKeys, Except.isOk, Except.toBool]
  | cons hd rest ih =>
      cases hd with
      | lit s =>
          have key : (formatTemplate (TItem.lit s :: rest) ctx).isOk
              = (formatTemplate rest ctx).isOk := by
            simp only [formatTemplate]
            cases formatTemplate rest ctx <;> rfl
          rw [key, ih]
          simp [fieldKeys]
      | field k =>
          cases hc : lookupCtx ctx k with
          | none =>
              have key : (formatTemplate (TItem.field k :: rest) ctx).isOk
                  = false := by
                simp only [formatTemplate, hc]
                rfl
              rw [key]
              simp only [fieldKeys]
              constructor
              · intro h
                exact absurd h (by decide)
              · intro h
                have hk := h k (List.mem_cons_self _ _)
                simp [hc] at hk
          | some v =>
              have key : (formatTemplate (TItem.field k :: rest) ctx).isOk
                  = (formatTemplate rest ctx).isOk := by
                simp only [formatTemplate, hc]
                cases formatTemplate rest ctx <;> rfl
              rw [key, ih]
              simp only [fieldKeys, List.mem_cons]
              constructor
              · intro h k2 hk2
                rcases hk2 with h1 | h2
                · subst h1; simp [hc]
                · exact h k2 h2
              · intro h k2 hk2
                exact h k2 (Or.inr hk2)

/-! Claim theorems. -/

/-- C2: for every valid input (a supplied sink), `intercept_err_and_log`
never returns normally — the model's result always carries a `Raised`
value, reached after exactly one log write — and the exception raised is
`err_raise` when supplied, else the caught exception `err`. -/
theorem intercept_err_and_log_always_raises (err : PyVal)
    (ann : Option String) (err_raise : Option PyVal) (sink : Logger)
    (lvl : Nat) (from_err : Bool) (sf : Option PyVal)
    (kw : List (String × PyVal)) (fr : String)
    (h1 : is_exc_instance err = true)
    (h2 : ∀ r, err_raise = some r → is_exc_instance r = true) :
    (intercept_err_and_log err ann err_raise (some sink) lvl from_err sf kw
        fr).1.length = 1 ∧
    (intercept_err_and_log err ann err_raise (some sink) lvl from_err sf kw
        fr).2.exc = err_raise.getD err := by
  cases err <;> simp only [is_exc_instance] at h1 <;>
    try exact absurd h1 (by decide)
  cases err_raise with
  | none =>
      cases sf <;>
        simp [intercept_err_and_log, log_err, raise_except, is_exc_type,
          pyTruthy]
  | some r =>
      have hr := h2 r rfl
      cases r <;> simp only [is_exc_instance] at hr <;>
        try exact absurd hr (by decide)
      cases sf <;>
        simp [intercept_err_and_log, log_err, raise_except, is_exc_type,
          pyTruthy]

/-- Witness for C2 at a concrete caught exception and replacement. -/
theorem intercept_err_and_log_always_raises_witness :
    (intercept_err_and_log (.excInst "ValueError" "e") none
        (some (.excInst "KeyError" "r")) (some ⟨⟩) logging_ERROR true none []
        "caller").1.length = 1 ∧
    (intercept_err_and_log (.excInst "ValueError" "e") none
        (some (.excInst "KeyError" "r")) (some ⟨⟩) logging_ERROR true none []
        "caller").2.exc = .excInst "KeyError" "r" := by
  have h := intercept_err_and_log_always_raises (.excInst "ValueError" "e")
    none (some (.excInst "KeyError" "r")) ⟨⟩ logging_ERROR true none []
    "caller" (by decide) (by intro r h; injection h with h; subst h; decide)
  exact ⟨h.1, h.2.trans (by decide)⟩

/-- C1 (failing-input evaluation): with a replacement exception supplied,
`preserveCause=true` (`from_err=true`) records the caught exception as
the cause, but `preserveCause=false` does not leave the cause unset — by
operator precedence the code executes
`raise err_raise from (err if from_err else err_raise)`, so the raised
replacement records itself as its own cause. -/
theorem intercept_from_err_false_self_cause :
    (intercept_err_and_log (.excInst "ValueError" "e") none
        (some (.excInst "KeyError" "r")) (some ⟨⟩) logging_ERROR false
        (some (.str "f")) [] "caller").2 =
      ⟨.excInst "KeyError" "r", some (.excInst "KeyError" "r")⟩ ∧
    (intercept_err_and_log (.excInst "ValueError" "e") none
        (some (.excInst "KeyError" "r")) (some ⟨⟩) logging_ERROR true
        (some (.str "f")) [] "caller").2 =
      ⟨.excInst "KeyError" "r", some (.excInst "ValueError" "e")⟩ := by
  decide

/-- C3: `log_err` with an absent sink always fails with the missing-sink
contract-violation error (`AttributeError` with the missing-logger
message) and performs no write — the result is an error, not a record,
so no fallback sink is ever consulted. -/
theorem log_err_missing_sink_raises (err : PyVal) (ann : Option String)
    (lvl : Nat) (sf : Option PyVal) (kw : List (String × PyVal))
    (fr : String) :
    log_err err ann none lvl sf kw fr =
      Except.error ⟨.excInst "AttributeError"
        "отсутствует объект логирования", none⟩ := by
  cases sf <;> rfl

/-- C5: `get_simple_or_annotated` returns the annotated form
`"<label> " ++ annotation ++ ": " ++ rendered` exactly when the
annotation is present — including when it is the empty string — and the
simple form `simple_msg_err` exactly when it is absent. -/
theorem get_simple_or_annotated_annotation_dispatch (e : PyVal)
    (s a : String) :
    get_simple_or_annotated e s (some a) =
      "<" ++ s ++ "> " ++ a ++ ": " ++ pyStr (get_err_str e) ∧
    get_simple_or_annotated e s none = simple_msg_err e s :=
  ⟨rfl, rfl⟩

/-- C6 (counterexample): at the scenario's input the sink does not
receive the message `<lookup> KeyError: missing id` claimed by the
spec — `KeyError` renders the `repr` of its argument, so the key
appears quoted in the log line. -/
theorem raise_err_and_log_keyerror_message_counterexample :
    (raise_err_and_log (.excType "KeyError") (some "missing id") none
        (some ⟨⟩) logging_ERROR (some (.str "lookup")) "caller").1 ≠
      [⟨logging_ERROR, "<lookup> KeyError: missing id", []⟩] := by
  decide

/-- C6 (amended): `raise_err_and_log` with the bare class `KeyError`, a
sink, the message `missing id` and source label `lookup` writes exactly
one record at the default severity `logging.ERROR` whose message is
`<lookup> KeyError:` followed by the repr-quoted key `missing id`, then
raises `KeyError` instantiated with `missing id` (and no cause link). -/
theorem raise_err_and_log_keyerror_scenario :
    raise_err_and_log (.excType "KeyError") (some "missing id") none
        (some ⟨⟩) logging_ERROR (some (.str "lookup")) "caller" =
      ([⟨logging_ERROR, "<lookup> KeyError: \x27missing id\x27", []⟩],
        ⟨.excInst "KeyError" "\x27missing id\x27", none⟩) := by
  decide

/-- C7: `simple_msg_err` renders an exception instance as
`"<label> " ++ typeName ++ ": " ++ str(e)` and passes a plain string
through unchanged inside the `"<label> "` wrapper. -/
theorem simple_msg_err_rendering (ty msg s t : String) :
    simple_msg_err (.excInst ty msg) s =
      "<" ++ s ++ "> " ++ ty ++ ": " ++ msg ∧
    simple_msg_err (.str t) s = "<" ++ s ++ "> " ++ t := by
  constructor
  · simp [simple_msg_err, get_err_str, is_exc_instance, class_name, pyStr,
      String.append_assoc]
  · rfl

/-- C8: `custom_msg_err` succeeds exactly when every key referenced by
the template is supplied — with `err` and `func_name` always available
as substitution keys — and fails with the format-key error otherwise;
the spec scenario fills `User ... hit 404 in handler` and, with `code`
omitted, fails with the key `code`. -/
theorem custom_msg_err_format_key_contract (err : PyVal) (fn : String)
    (tmpl : List TItem) (ctx : List (String × PyVal)) :
    ((custom_msg_err err fn tmpl ctx).isOk = true ↔
      ∀ k ∈ fieldKeys tmpl,
        k = "err" ∨ k = "func_name" ∨ (lookupCtx ctx k).isSome = true) ∧
    custom_msg_err (.excInst "ValueError" "boom") "handler"
        [.lit "User ", .field "err", .lit " hit ", .field "code",
          .lit " in ", .field "func_name"] [("code", .pyInt 404)] =
      Except.ok "User boom hit 404 in handler" ∧
    custom_msg_err (.excInst "ValueError" "boom") "handler"
        [.lit "User ", .field "err", .lit " hit ", .field "code",
          .lit " in ", .field "func_name"] [] =
      Except.error "code" := by
  refine ⟨?_, rfl, rfl⟩
  simp only [custom_msg_err]
  rw [formatTemplate_isOk]
  constructor
  · intro h k hk
    have hx := h k hk
    rw [lookupCtx_setdefault_isSome, lookupCtx_setdefault_isSome,
      Bool.or_eq_true, Bool.or_eq_true] at hx
    rcases hx with h1 | h2
    · rcases h1 with ha | hb
      · exact Or.inr (Or.inr ha)
      · exact Or.inl (by simpa using hb)
    · exact Or.inr (Or.inl (by simpa using h2))
  · intro h k hk
    rw [lookupCtx_setdefault_isSome, lookupCtx_setdefault_isSome]
    rcases h k hk with h1 | h2 | h3
    · subst h1; simp
    · subst h2; simp
    · simp [h3]

/-- Witness for C8: the scenario template succeeds once `code` is
supplied, via the key contract. -/
theorem custom_msg_err_format_key_contract_witness :
    (custom_msg_err (.excInst "ValueError" "boom") "handler"
        [.lit "User ", .field "err", .lit " hit ", .field "code",
          .lit " in ", .field "func_name"]
        [("code", .pyInt 404)]).isOk = true :=
  ((custom_msg_err_format_key_contract (.excInst "ValueError" "boom")
      "handler"
      [.lit "User ", .field "err", .lit " hit ", .field "code",
        .lit " in ", .field "func_name"]
      [("code", .pyInt 404)]).1).mpr (by decide)

/-- C9: entries named `err` or `func_name` in `template_context` override
the positional `err` and `func_name` arguments of `custom_msg_err`: when
such a key is supplied the result no longer depends on the corresponding
positional argument, and when both are supplied the caller's context is
used exactly as given. -/
theorem custom_msg_err_context_overrides_positional (tmpl : List TItem)
    (ctx : List (String × PyVal)) (e1 e2 : PyVal) (f1 f2 : String) :
    ((lookupCtx ctx "err").isSome = true →
      custom_msg_err e1 f1 tmpl ctx = custom_msg_err e2 f1 tmpl ctx) ∧
    ((lookupCtx ctx "func_name").isSome = true →
      custom_msg_err e1 f1 tmpl ctx = custom_msg_err e1 f2 tmpl ctx) ∧
    ((lookupCtx ctx "err").isSome = true →
      (lookupCtx ctx "func_name").isSome = true →
      custom_msg_err e1 f1 tmpl ctx = formatTemplate tmpl ctx) := by
  refine ⟨?_, ?_, ?_⟩
  · intro h
    simp only [custom_msg_err]
    rw [setdefault_of_present ctx "err" e1 h,
      setdefault_of_present ctx "err" e2 h]
  · intro h
    simp only [custom_msg_err]
    have h1 : (lookupCtx (setdefault ctx "err" e1) "func_name").isSome
        = true := by
      rw [lookupCtx_setdefault_isSome]
      simp [h]
    rw [setdefault_of_present (setdefault ctx "err" e1) "func_name"
      (PyVal.str f1) h1]
    rw [setdefault_of_present (setdefault ctx "err" e1) "func_name"
      (PyVal.str f2) h1]
  · intro h h2
    simp only [custom_msg_err]
    rw [setdefault_of_present ctx "err" e1 h]
    rw [setdefault_of_present ctx "func_name" _ h2]

/-- Witness for C9: with both keys supplied by the caller, the positional
exception and label are ignored and the caller's context is used. -/
theorem custom_msg_err_context_overrides_positional_witness :
    custom_msg_err (.excInst "ValueError" "boom") "real"
        [TItem.field "err"] [("err", .str "X"), ("func_name", .str "F")] =
      formatTemplate [TItem.field "err"]
        [("err", .str "X"), ("func_name", .str "F")] :=
  (custom_msg_err_context_overrides_positional [TItem.field "err"]
    [("err", .str "X"), ("func_name", .str "F")]
    (.excInst "ValueError" "boom") (.str "other") "real" "fake").2.2
    (by decide) (by decide)

/-- C10: when `source_func` is supplied but is neither a string nor a
callable, `log_err` silently uses the literal label `log_err` (the
logging helper's own name) in the written record, instead of failing or
using the supplied value. -/
theorem log_err_invalid_source_func_fallback (v err : PyVal)
    (ann : Option String) (sink : Logger) (lvl : Nat)
    (kw : List (String × PyVal)) (fr : String)
    (h1 : isStr v = false) (h2 : isCallable v = false) :
    log_err err ann (some sink) lvl (some v) kw fr =
      Except.ok ⟨lvl, get_simple_or_annotated err "log_err" ann, kw⟩ := by
  cases v <;> simp_all [log_err, get_func_name, isStr, isCallable,
    callable_name]

/-- Witness for C10: an integer as `source_func` yields the label
`log_err` in the message. -/
theorem log_err_invalid_source_func_fallback_witness :
    log_err (.excInst "ValueError" "x") none (some ⟨⟩) logging_ERROR
        (some (.pyInt 7)) [] "caller" =
      Except.ok ⟨logging_ERROR, "<log_err> ValueError: x", []⟩ :=
  (log_err_invalid_source_func_fallback (.pyInt 7)
    (.excInst "ValueError" "x") none ⟨⟩ logging_ERROR [] "caller"
    (by decide) (by decide)).trans (congrArg Except.ok (by decide))
